import Mathlib

/-!
Shallow embedding of the Fusion 360 example scripts of this repository.

Each script's `run(context)` is a straight-line sequence of calls into the
host CAD application's object model (`adsk.core`, `adsk.fusion`), wrapped in
a single bare `except` whose handler shows a failure dialog when the local
variable `ui` has already been assigned.  We embed each script as the list
of host-API calls it issues (a pure function of the host-supplied data:
the edges of the extruded body, the normals of its faces, and the number
of profiles of the second sketch), together with a uniform execution model
in which an exception may be raised at any call position.
-/

namespace Fusion360

/-- Profile argument passed to `extrudeFeatures.createInput`: either a single
profile obtained from `sketch.profiles.item(i)`, or an `ObjectCollection`
of profiles. -/
inductive ProfileSrc where
  | single (i : Nat)
  | collection
  deriving DecidableEq, Repr

/-- The boolean operation of an extrusion: `NewBodyFeatureOperation` or
`CutFeatureOperation`. -/
inductive FeatureOp where
  | newBody
  | cut
  deriving DecidableEq, Repr

/-- A modal dialog shown via `ui.messageBox`: either an informational message
with a literal text, or the failure dialog built from
`traceback.format_exc()` in the `except` handler. -/
inductive Dialog where
  | info (s : String)
  | failureTrace
  deriving DecidableEq, Repr

/-- One observable effect of a script: a call on a host-API object or a modal
dialog.  The constructors `deleteObject`, `fileRead`, `fileWrite` and
`networkOpen` are effects the host API offers that these scripts could in
principle perform; no script of the repository ever emits them. -/
inductive Event where
  | applicationGet
  | userInterface
  | documentsAdd
  | activeProduct
  | sketchesAddOnPlane
  | sketchesAddOnFace (f : Option Nat)
  | addTwoPointRectangle (x1 y1 x2 y2 : ℚ)
  | addByCenterRadius (cx cy r : ℚ)
  | profilesItem (i : Nat)
  | extrudeCreateInput (src : ProfileSrc) (op : FeatureOp)
  | valueInputCreateByReal (v : ℚ)
  | setDistanceExtent (isSymmetric : Bool)
  | extrudesAdd
  | bRepBodiesItem (i : Nat)
  | extBodiesItem (i : Nat)
  | objectCollectionCreate
  | collectionAddEdge (e : Nat)
  | collectionAddProfile (i : Nat)
  | filletCreateInput
  | addConstantRadiusEdgeSet (r : ℚ) (isTangentChain : Bool)
  | setIsG2 (b : Bool)
  | setIsRollingBallCorner (b : Bool)
  | filletsAdd
  | messageBox (d : Dialog)
  | deleteObject (i : Nat)
  | fileRead (path : String)
  | fileWrite (path : String)
  | networkOpen (addr : String)
  deriving DecidableEq, Repr

/-- Host-supplied data a script's control flow depends on: the edges of the
extruded body (as abstract identifiers, in iteration order of `body.edges`),
the z-components of the surface normals of the body's faces (in iteration
order of `body.faces`), and `topSketch.profiles.count` for the second sketch
of the cut-based smiley script. -/
structure Host where
  edges : List Nat
  faces : List ℚ
  topProfileCount : Nat
  deriving DecidableEq, Repr

/-- The five scripts of the repository.  `rectangleWithHole` is
`examples/rectangle_with_hole/rectangle_with_hole.py` (despite its file name
it builds the cut-based smiley face); `box` is `examples/box/box.py` (the
rectangle-with-hole-and-fillets script). -/
inductive Script where
  | box
  | rectangleWithHole
  | rectangleWithHoleAndFillet
  | circleWithHoleAndFillet
  | faceWithEyesAndMouth
  deriving DecidableEq, Repr

/-- Success message of `examples/box/box.py`. -/
def boxMsg : String := r"Rectangle with hole and fillets created successfully"

/-- Success message of `examples/rectangle_with_hole_and_fillet.py`. -/
def rect2Msg : String := r"Rectangle with hole and fillets created successfully"

/-- Success message of `examples/circle_with_hole_and_fillet.py`. -/
def circleMsg : String := r"Circle with hole and fillets created successfully"

/-- Success message of `examples/face_with_eyes_and_mouth.py`. -/
def faceMsg : String := r"3D Smiley Face created successfully"

/-- Success message of `examples/rectangle_with_hole/rectangle_with_hole.py`. -/
def smileyMsg : String := r"Smiley face created successfully"

/-- The test of the face-selection loop of the cut-based smiley script:
`abs(face.geometry.normal.z - 1) < 0.001`. -/
def isTopFace (z : ℚ) : Bool := |z - 1| < 1 / 1000

/-- The face-selection loop of the cut-based smiley script:
`topFace = None; for face in body.faces: if abs(...) < 0.001: topFace = face; break`.
Returns the index (in iteration order) of the selected face, or `none`. -/
def findTopFace : List ℚ → Option Nat
  | [] => none
  | z :: rest => if isTopFace z then some 0 else (findTopFace rest).map (· + 1)

/-- Calls of `examples/box/box.py` before the edge-collection loop:
`Application.get`, `app.userInterface`, `documents.add`, `app.activeProduct`,
`sketches.add(xyPlane)`, `addTwoPointRectangle((-10,-5),(10,5))`,
`addByCenterRadius((0,0), 3)`, `profiles.item(0)`,
`extrudes.createInput(outerProfile, NewBody)`, `createByReal(5)`,
`setDistanceExtent(False, distance)`, `extrudes.add`,
`rootComp.bRepBodies.item(0)`, `ObjectCollection.create()`. -/
def boxPre : List Event :=
  [ .applicationGet, .userInterface, .documentsAdd, .activeProduct,
    .sketchesAddOnPlane,
    .addTwoPointRectangle (-10) (-5) 10 5,
    .addByCenterRadius 0 0 3,
    .profilesItem 0,
    .extrudeCreateInput (.single 0) .newBody,
    .valueInputCreateByReal 5,
    .setDistanceExtent false,
    .extrudesAdd,
    .bRepBodiesItem 0,
    .objectCollectionCreate ]

/-- Calls of `examples/box/box.py` after the edge-collection loop:
`fillets.createInput()`, `createByReal(1)`,
`addConstantRadiusEdgeSet(edgeCollection, filletRadius, True)`,
`fillets.add`, success dialog. -/
def boxPost : List Event :=
  [ .filletCreateInput,
    .valueInputCreateByReal 1,
    .addConstantRadiusEdgeSet 1 true,
    .filletsAdd,
    .messageBox (.info boxMsg) ]

/-- The full host-call sequence of `examples/box/box.py`'s `run`, given the
host data: the edge-collection loop `for edge in body.edges: edgeCollection.add(edge)`
sits between `boxPre` and `boxPost`. -/
def boxCalls (h : Host) : List Event :=
  boxPre ++ h.edges.map Event.collectionAddEdge ++ boxPost

/-- Calls of `examples/rectangle_with_hole_and_fillet.py` before the
edge-collection loop.  Identical geometry to `box.py` (rectangle from
`(-halfWidth,-halfHeight)` to `(halfWidth,halfHeight)` with
`halfWidth = 10`, `halfHeight = 5`; circle radius `3.0`; extrusion `5.0`),
but the body is obtained as `ext.bodies.item(0)` and the collection is
created before the fillet input. -/
def rect2Pre : List Event :=
  [ .applicationGet, .userInterface, .documentsAdd, .activeProduct,
    .sketchesAddOnPlane,
    .addTwoPointRectangle (-10) (-5) 10 5,
    .addByCenterRadius 0 0 3,
    .profilesItem 0,
    .extrudeCreateInput (.single 0) .newBody,
    .valueInputCreateByReal 5,
    .setDistanceExtent false,
    .extrudesAdd,
    .extBodiesItem 0,
    .objectCollectionCreate ]

/-- Calls of `examples/rectangle_with_hole_and_fillet.py` after the
edge-collection loop: `fillets.createInput()`, `createByReal(1.0)`,
`addConstantRadiusEdgeSet(edges, ..., False)`, `isG2 = False`,
`isRollingBallCorner = True`, `fillets.add`, success dialog. -/
def rect2Post : List Event :=
  [ .filletCreateInput,
    .valueInputCreateByReal 1,
    .addConstantRadiusEdgeSet 1 false,
    .setIsG2 false,
    .setIsRollingBallCorner true,
    .filletsAdd,
    .messageBox (.info rect2Msg) ]

/-- The full host-call sequence of `examples/rectangle_with_hole_and_fillet.py`. -/
def rect2Calls (h : Host) : List Event :=
  rect2Pre ++ h.edges.map Event.collectionAddEdge ++ rect2Post

/-- Calls of `examples/circle_with_hole_and_fillet.py` before the
edge-collection loop: outer circle radius `25.0`, inner circle radius
`20.0`, extrusion `10.0`. -/
def circlePre : List Event :=
  [ .applicationGet, .userInterface, .documentsAdd, .activeProduct,
    .sketchesAddOnPlane,
    .addByCenterRadius 0 0 25,
    .addByCenterRadius 0 0 20,
    .profilesItem 0,
    .extrudeCreateInput (.single 0) .newBody,
    .valueInputCreateByReal 10,
    .setDistanceExtent false,
    .extrudesAdd,
    .extBodiesItem 0,
    .objectCollectionCreate ]

/-- Calls of `examples/circle_with_hole_and_fillet.py` after the
edge-collection loop: fillet radius `2.0`. -/
def circlePost : List Event :=
  [ .filletCreateInput,
    .valueInputCreateByReal 2,
    .addConstantRadiusEdgeSet 2 false,
    .setIsG2 false,
    .setIsRollingBallCorner true,
    .filletsAdd,
    .messageBox (.info circleMsg) ]

/-- The full host-call sequence of `examples/circle_with_hole_and_fillet.py`. -/
def circleCalls (h : Host) : List Event :=
  circlePre ++ h.edges.map Event.collectionAddEdge ++ circlePost

/-- Calls of `examples/face_with_eyes_and_mouth.py` before the
edge-collection loop: face circle `addByCenterRadius(centerPoint, 50.0)`,
eyes at `(-15,15)` and `(15,15)` with radius `2.5`, mouth at `(0,-10)` with
radius `10.0`, extrusion `10.0`. -/
def facePre : List Event :=
  [ .applicationGet, .userInterface, .documentsAdd, .activeProduct,
    .sketchesAddOnPlane,
    .addByCenterRadius 0 0 50,
    .addByCenterRadius (-15) 15 (5 / 2),
    .addByCenterRadius 15 15 (5 / 2),
    .addByCenterRadius 0 (-10) 10,
    .profilesItem 0,
    .extrudeCreateInput (.single 0) .newBody,
    .valueInputCreateByReal 10,
    .setDistanceExtent false,
    .extrudesAdd,
    .extBodiesItem 0,
    .objectCollectionCreate ]

/-- Calls of `examples/face_with_eyes_and_mouth.py` after the
edge-collection loop: fillet radius `1.5`. -/
def facePost : List Event :=
  [ .filletCreateInput,
    .valueInputCreateByReal (3 / 2),
    .addConstantRadiusEdgeSet (3 / 2) false,
    .setIsG2 false,
    .setIsRollingBallCorner true,
    .filletsAdd,
    .messageBox (.info faceMsg) ]

/-- The full host-call sequence of `examples/face_with_eyes_and_mouth.py`. -/
def faceCalls (h : Host) : List Event :=
  facePre ++ h.edges.map Event.collectionAddEdge ++ facePost

/-- Calls of `examples/rectangle_with_hole/rectangle_with_hole.py` (the
cut-based smiley script) up to and including `rootComp.bRepBodies.item(0)`:
main circle radius `25`, first extrusion `5`. -/
def smileyPre : List Event :=
  [ .applicationGet, .userInterface, .documentsAdd, .activeProduct,
    .sketchesAddOnPlane,
    .addByCenterRadius 0 0 25,
    .profilesItem 0,
    .extrudeCreateInput (.single 0) .newBody,
    .valueInputCreateByReal 5,
    .setDistanceExtent false,
    .extrudesAdd,
    .bRepBodiesItem 0 ]

/-- Calls of the cut-based smiley script between `sketches.add(topFace)` and
the profile-collection loop: eyes at `(-10,10)` and `(10,10)` with radius
`2.5`, smile at `(0,-10)` with radius `7.5`, then `ObjectCollection.create()`. -/
def smileyMid : List Event :=
  [ .addByCenterRadius (-10) 10 (5 / 2),
    .addByCenterRadius 10 10 (5 / 2),
    .addByCenterRadius 0 (-10) (15 / 2),
    .objectCollectionCreate ]

/-- The profile-collection loop of the cut-based smiley script:
`for i in range(topProfiles.count): profileCollection.add(topProfiles.item(i))`. -/
def smileyProfLoop (n : Nat) : List Event :=
  (List.range n).flatMap fun i => [Event.profilesItem i, Event.collectionAddProfile i]

/-- Calls of the cut-based smiley script after the profile-collection loop:
`extrudes.createInput(profileCollection, Cut)`, `createByReal(3)`,
`setDistanceExtent(False, cutDistance)`, `extrudes.add`, success dialog. -/
def smileyPost : List Event :=
  [ .extrudeCreateInput .collection .cut,
    .valueInputCreateByReal 3,
    .setDistanceExtent false,
    .extrudesAdd,
    .messageBox (.info smileyMsg) ]

/-- The full host-call sequence of the cut-based smiley script: after
`smileyPre`, the face-selection loop (which issues no modelled calls)
computes `topFace = findTopFace h.faces`, which is passed to
`sketches.add(topFace)`; then the second sketch's circles, the
profile-collection loop, and the cut extrusion. -/
def smileyCalls (h : Host) : List Event :=
  smileyPre
    ++ Event.sketchesAddOnFace (findTopFace h.faces)
        :: (smileyMid ++ smileyProfLoop h.topProfileCount ++ smileyPost)

/-- The host-call sequence a given script issues when no call raises. -/
def scriptCalls : Script → Host → List Event
  | .box, h => boxCalls h
  | .rectangleWithHole, h => smileyCalls h
  | .rectangleWithHoleAndFillet, h => rect2Calls h
  | .circleWithHoleAndFillet, h => circleCalls h
  | .faceWithEyesAndMouth, h => faceCalls h

/-- The name of the host's scripting entry point exported by each file. -/
def runName : String := r"run"

/-- The top-level function definitions of each script's source file: every
file defines exactly one top-level function, `run(context)`. -/
def scriptTopLevelDefs : Script → List String
  | _ => [runName]

/-- State of the `try` body after it finishes or is aborted by an exception:
the calls that completed, and whether an exception was raised. -/
structure ExecState where
  trace : List Event
  raised : Bool
  deriving DecidableEq, Repr

/-- Execute the straight-line `try` body whose nominal call sequence is
`calls`, where the call at position `failAt` (if any, and if within the
sequence) raises: the calls before it complete, it and everything after it
do not. -/
def runTry (failAt : Option Nat) (calls : List Event) : ExecState :=
  match failAt with
  | none => ⟨calls, false⟩
  | some k => if k < calls.length then ⟨calls.take k, true⟩ else ⟨calls, false⟩

/-- Result of a whole `run(context)` invocation: the observable trace, whether
the `try` body raised, and the value `run` returns to the host
(`some ()` models a normal `None` return; `none` would model an uncaught
exception escaping `run`). -/
structure RunResult where
  trace : List Event
  raisedInBody : Bool
  retval : Option Unit
  deriving DecidableEq, Repr

/-- The `except:` handler shared by all scripts: `if ui:
ui.messageBox('Failed:...' + traceback.format_exc())`.  The local `ui` has
been assigned exactly when the `app.userInterface` call completed, i.e. when
`Event.userInterface` is in the trace of the `try` body.  The bare `except`
swallows the exception either way, so `run` always returns normally. -/
def handleExcept (s : ExecState) : RunResult :=
  if s.raised then
    if Event.userInterface ∈ s.trace then
      ⟨s.trace ++ [.messageBox .failureTrace], true, some ()⟩
    else
      ⟨s.trace, true, some ()⟩
  else
    ⟨s.trace, false, some ()⟩

/-- A whole `run(context)` invocation of a script.  The `context` parameter is
accepted (as in every script's `def run(context):`) and, as in the source,
never read. -/
def runScript {α : Type} (sc : Script) (context : α) (h : Host)
    (failAt : Option Nat) : RunResult :=
  handleExcept (runTry failAt (scriptCalls sc h))

/-- The edge added by a `collectionAddEdge` call, if the event is one. -/
def edgeArg : Event → Option Nat
  | .collectionAddEdge e => some e
  | _ => none

/-- The radius and tangent-chain flag of an `addConstantRadiusEdgeSet` call,
if the event is one. -/
def filletSetArg : Event → Option (ℚ × Bool)
  | .addConstantRadiusEdgeSet r b => some (r, b)
  | _ => none

/-- The index of a `profiles.item(i)` call, if the event is one. -/
def profileItemArg : Event → Option Nat
  | .profilesItem i => some i
  | _ => none

/-- The profile source and operation of an `extrudes.createInput` call, if
the event is one. -/
def extrudeInputArg : Event → Option (ProfileSrc × FeatureOp)
  | .extrudeCreateInput src op => some (src, op)
  | _ => none

/-- The center and radius of an `addByCenterRadius` call, if the event is one. -/
def circleArg : Event → Option (ℚ × ℚ × ℚ)
  | .addByCenterRadius x y r => some (x, y, r)
  | _ => none

/-- Whether the event is a modal dialog. -/
def Event.isDialog : Event → Bool
  | .messageBox _ => true
  | _ => false

/-- Whether the event is a call on a host-API object (everything except
dialogs and the never-performed external effects). -/
def Event.isHostApiCall : Event → Bool
  | .messageBox _ => false
  | .deleteObject _ => false
  | .fileRead _ => false
  | .fileWrite _ => false
  | .networkOpen _ => false
  | _ => true

/-- Whether the event is an effect outside the host application: a file
access, a network connection, or a CLI-style deletion is never one a script
performs. -/
def Event.isOutsideEffect : Event → Bool
  | .fileRead _ => true
  | .fileWrite _ => true
  | .networkOpen _ => true
  | _ => false

/-- A concrete host used to instantiate universally quantified theorems:
a body with three edges, one face whose normal is `(0,0,1)`, and two
profiles on the second sketch. -/
def hB : Host := ⟨[7, 8, 9], [1], 2⟩

/-- A concrete host whose body has two faces, the first with normal
z-component `0` and the second with normal z-component `1`. -/
def hC : Host := ⟨[], [0, 1], 0⟩

/-! ### Basic execution lemmas -/

lemma handleExcept_retval (s : ExecState) : (handleExcept s).retval = some () := by
  unfold handleExcept
  split
  · split <;> rfl
  · rfl

lemma runTry_some_trace (k : Nat) (calls : List Event) :
    (runTry (some k) calls).trace = calls.take k := by
  simp only [runTry]
  split
  · rfl
  · next hlen => simp [List.take_of_length_le (Nat.le_of_not_lt hlen)]

lemma runScript_none_trace {α : Type} (sc : Script) (c : α) (h : Host) :
    (runScript sc c h none).trace = scriptCalls sc h := rfl

lemma filterMap_map_of_some {α β γ : Type} (g : α → β) (f : β → Option γ) (e : α → γ)
    (hf : ∀ a, f (g a) = some (e a)) (l : List α) :
    (l.map g).filterMap f = l.map e := by
  induction l with
  | nil => rfl
  | cons a t ih => simp [hf, ih]

lemma filterMap_map_of_none {α β γ : Type} (g : α → β) (f : β → Option γ)
    (hf : ∀ a, f (g a) = none) (l : List α) :
    (l.map g).filterMap f = [] := by
  induction l with
  | nil => rfl
  | cons a t ih => simp [hf, ih]

lemma filterMap_pairLoop {γ : Type} (f : Event → Option γ)
    (h1 : ∀ i, f (Event.profilesItem i) = none)
    (h2 : ∀ i, f (Event.collectionAddProfile i) = none) (l : List Nat) :
    (l.flatMap fun i => [Event.profilesItem i, Event.collectionAddProfile i]).filterMap f
      = [] := by
  induction l with
  | nil => rfl
  | cons a t ih => simp [h1, h2, ih]

lemma all_pairLoop (p : Event → Bool)
    (h1 : ∀ i, p (Event.profilesItem i) = true)
    (h2 : ∀ i, p (Event.collectionAddProfile i) = true) (l : List Nat) :
    (l.flatMap fun i => [Event.profilesItem i, Event.collectionAddProfile i]).all p
      = true := by
  induction l with
  | nil => rfl
  | cons a t ih => simp [h1, h2, ih]

lemma all_mapEdges (p : Event → Bool)
    (hp : ∀ e, p (Event.collectionAddEdge e) = true) (l : List Nat) :
    (l.map Event.collectionAddEdge).all p = true := by
  induction l with
  | nil => rfl
  | cons a t ih => simp [hp, ih]

lemma all_take {p : Event → Bool} {l : List Event} (hl : l.all p = true) (k : Nat) :
    (l.take k).all p = true := by
  rw [List.all_eq_true] at hl ⊢
  exact fun e he => hl e (List.take_subset k l he)

lemma scriptCalls_length_pos (sc : Script) (h : Host) :
    0 < (scriptCalls sc h).length := by
  cases sc <;>
    simp [scriptCalls, boxCalls, rect2Calls, circleCalls, faceCalls, smileyCalls,
      boxPre, rect2Pre, circlePre, facePre, smileyPre]

lemma scriptCalls_take_one (sc : Script) (h : Host) :
    (scriptCalls sc h).take 1 = [Event.applicationGet] := by
  cases sc <;>
    simp [scriptCalls, boxCalls, rect2Calls, circleCalls, faceCalls, smileyCalls,
      boxPre, rect2Pre, circlePre, facePre, smileyPre]

lemma userInterface_mem_take (sc : Script) (h : Host) (m : Nat) :
    Event.userInterface ∈ (scriptCalls sc h).take (m + 2) := by
  cases sc <;>
    simp [scriptCalls, boxCalls, rect2Calls, circleCalls, faceCalls, smileyCalls,
      boxPre, rect2Pre, circlePre, facePre, smileyPre, List.take_succ_cons]

lemma runScript_trace_shape {α : Type} (sc : Script) (c : α) (h : Host)
    (failAt : Option Nat) :
    ∃ k : Nat, ∃ tail : List Event,
      (runScript sc c h failAt).trace = (scriptCalls sc h).take k ++ tail
      ∧ (tail = [] ∨ tail = [Event.messageBox Dialog.failureTrace]) := by
  cases failAt with
  | none =>
      exact ⟨(scriptCalls sc h).length, [],
        by simp [runScript, runTry, handleExcept, List.take_length], Or.inl rfl⟩
  | some k =>
      by_cases hk : k < (scriptCalls sc h).length
      · by_cases hm : Event.userInterface ∈ (scriptCalls sc h).take k
        · exact ⟨k, [Event.messageBox Dialog.failureTrace],
            by simp [runScript, runTry, handleExcept, hk, hm], Or.inr rfl⟩
        · exact ⟨k, [],
            by simp [runScript, runTry, handleExcept, hk, hm], Or.inl rfl⟩
      · exact ⟨(scriptCalls sc h).length, [],
          by simp [runScript, runTry, handleExcept, hk, List.take_length], Or.inl rfl⟩

lemma deleteObject_not_mem_scriptCalls (sc : Script) (h : Host) (i : Nat) :
    Event.deleteObject i ∉ scriptCalls sc h := by
  cases sc <;>
    simp [scriptCalls, boxCalls, rect2Calls, circleCalls, faceCalls, smileyCalls,
      boxPre, boxPost, rect2Pre, rect2Post, circlePre, circlePost, facePre, facePost,
      smileyPre, smileyMid, smileyPost, smileyProfLoop,
      List.mem_append, List.mem_map, List.mem_flatMap]

lemma scriptCalls_all_host_or_dialog (sc : Script) (h : Host) :
    (scriptCalls sc h).all (fun e => e.isHostApiCall || e.isDialog) = true := by
  cases sc <;>
    simp [scriptCalls, boxCalls, rect2Calls, circleCalls, faceCalls, smileyCalls,
      boxPre, boxPost, rect2Pre, rect2Post, circlePre, circlePost, facePre, facePost,
      smileyPre, smileyMid, smileyPost, smileyProfLoop, List.all_append,
      all_mapEdges (fun e => e.isHostApiCall || e.isDialog) (fun _ => rfl),
      all_pairLoop (fun e => e.isHostApiCall || e.isDialog) (fun _ => rfl) (fun _ => rfl),
      Event.isHostApiCall, Event.isDialog]

lemma host_or_dialog_not_external (e : Event)
    (he : (e.isHostApiCall || e.isDialog) = true) : e.isOutsideEffect = false := by
  cases e <;> simp_all [Event.isHostApiCall, Event.isDialog, Event.isOutsideEffect]

lemma runScript_trace_all_host_or_dialog {α : Type} (sc : Script) (c : α) (h : Host)
    (failAt : Option Nat) :
    ((runScript sc c h failAt).trace).all (fun e => e.isHostApiCall || e.isDialog)
      = true := by
  obtain ⟨k, tail, htr, hcase⟩ := runScript_trace_shape sc c h failAt
  rw [htr, List.all_append, all_take (scriptCalls_all_host_or_dialog sc h) k,
    Bool.true_and]
  rcases hcase with rfl | rfl <;> rfl

lemma handleExcept_raised_mem {t : List Event} (hm : Event.userInterface ∈ t) :
    handleExcept ⟨t, true⟩
      = ⟨t ++ [Event.messageBox Dialog.failureTrace], true, some ()⟩ := by
  unfold handleExcept
  simp [hm]

lemma handleExcept_raised_not_mem {t : List Event} (hm : Event.userInterface ∉ t) :
    handleExcept ⟨t, true⟩ = ⟨t, true, some ()⟩ := by
  unfold handleExcept
  simp [hm]

lemma one_lt_scriptCalls_length (sc : Script) (h : Host) :
    1 < (scriptCalls sc h).length := by
  cases sc <;>
    simp [scriptCalls, boxCalls, rect2Calls, circleCalls, faceCalls, smileyCalls,
      boxPre, boxPost, rect2Pre, rect2Post, circlePre, circlePost, facePre, facePost,
      smileyPre, smileyMid, smileyPost]

/-! ### Claim theorems -/

/-- C3: if any call of `run`'s `try` body raises, the `try` body's trace is
exactly the prefix of the nominal call sequence before the failing call (no
subsequent construction step runs and no call site is re-executed, so no
call occurs more often than in the complete run), and no deletion or
cleanup call is ever issued on any run, failing or not — every host object
created before the failing step is left in the document. -/
theorem c3_failure_truncates_no_cleanup {α : Type} (c : α) (sc : Script) (h : Host)
    (k : Nat) :
    (runTry (some k) (scriptCalls sc h)).trace = (scriptCalls sc h).take k
  ∧ (∀ e : Event,
      ((runTry (some k) (scriptCalls sc h)).trace).count e
        ≤ (scriptCalls sc h).count e)
  ∧ (∀ failAt : Option Nat, ∀ i : Nat,
      Event.deleteObject i ∉ (runScript sc c h failAt).trace) := by
  refine ⟨runTry_some_trace k _, ?_, ?_⟩
  · intro e
    rw [runTry_some_trace k _]
    exact (List.take_sublist k _).count_le e
  · intro failAt i hmem
    obtain ⟨m, tail, htr, hcase⟩ := runScript_trace_shape sc c h failAt
    rw [htr, List.mem_append] at hmem
    rcases hmem with hmem | hmem
    · exact deleteObject_not_mem_scriptCalls sc h i (List.take_subset m _ hmem)
    · rcases hcase with rfl | rfl <;> simp_all

/-- C7: each script's source file defines exactly one top-level entry point,
`run`, and every observable effect of any invocation of `run` — complete or
aborted by an exception at any call — is a call on a host-API object or a
modal dialog; in particular no file access, network connection, or other
external effect ever appears in the trace. -/
theorem c7_effects_only_host_calls {α : Type} (c : α) (sc : Script) (h : Host)
    (failAt : Option Nat) :
    scriptTopLevelDefs sc = [runName]
  ∧ ((runScript sc c h failAt).trace).all
      (fun e => e.isHostApiCall || e.isDialog) = true
  ∧ ((runScript sc c h failAt).trace).all (fun e => !e.isOutsideEffect) = true := by
  refine ⟨by cases sc <;> rfl, runScript_trace_all_host_or_dialog sc c h failAt, ?_⟩
  have hall := runScript_trace_all_host_or_dialog sc c h failAt
  rw [List.all_eq_true] at hall ⊢
  intro e he
  rw [host_or_dialog_not_external e (hall e he)]
  rfl

/-- C9: `run` never propagates an exception to the host: whatever call (if
any) raises, the bare `except` swallows it and `run` returns `None`
(modelled `some ()`).  If the failure occurs at call 0 (`Application.get()`)
or call 1 (`app.userInterface`), the local `ui` is still `None`, the
handler's guard is false, and no dialog of any kind is shown. -/
theorem c9_no_propagation_silent_before_ui {α : Type} (c : α) (sc : Script)
    (h : Host) (failAt : Option Nat) :
    (runScript sc c h failAt).retval = some ()
  ∧ (runScript sc c h (some 0)).raisedInBody = true
  ∧ ((runScript sc c h (some 0)).trace).all (fun e => !e.isDialog) = true
  ∧ ((runScript sc c h (some 1)).trace).all (fun e => !e.isDialog) = true := by
  have h0 : runTry (some 0) (scriptCalls sc h) = ⟨[], true⟩ := by
    simp [runTry, scriptCalls_length_pos sc h]
  have h1 : runTry (some 1) (scriptCalls sc h) = ⟨[Event.applicationGet], true⟩ := by
    simp [runTry, one_lt_scriptCalls_length sc h, scriptCalls_take_one]
  refine ⟨handleExcept_retval _, ?_, ?_, ?_⟩
  · show (handleExcept (runTry (some 0) (scriptCalls sc h))).raisedInBody = true
    rw [h0]; rfl
  · show ((handleExcept (runTry (some 0) (scriptCalls sc h))).trace).all _ = true
    rw [h0]; rfl
  · show ((handleExcept (runTry (some 1) (scriptCalls sc h))).trace).all _ = true
    rw [h1]; rfl

/-- C10: `run` never reads its `context` parameter: two invocations with any
two context values (even of different types) and the same host behavior
produce identical results — the same trace, the same raised flag, the same
return value. -/
theorem c10_context_independent {α β : Type} (sc : Script) (a : α) (b : β)
    (h : Host) (failAt : Option Nat) :
    runScript sc a h failAt = runScript sc b h failAt := rfl

/-- C2 counterexample: the claim says every exception raised anywhere inside
the body of `run` is reported in a modal dialog.  In `box.py`, if the very
first call `adsk.core.Application.get()` raises, the exception is caught
(`raisedInBody = true`) but the trace is empty: no `ui.messageBox` dialog of
any kind is shown, because `ui` is still `None` in the handler. -/
theorem c2_counterexample :
    (runScript Script.box () hB (some 0)).raisedInBody = true
  ∧ (runScript Script.box () hB (some 0)).trace = [] := by
  constructor <;> rfl

/-- C2 (amended): every exception raised inside the `try` body of `run` is
caught by the single enclosing catch-all handler and `run` returns
normally; it is reported as the formatted-stack-trace modal dialog exactly
when the failure occurs after `ui` has been assigned (at call index ≥ 2,
i.e. after `Application.get()` and `app.userInterface` both completed);
a failure at index 0 or 1 is swallowed with no dialog. -/
theorem c2_amended_reporting {α : Type} (c : α) (sc : Script) (h : Host) (k : Nat)
    (hk : k < (scriptCalls sc h).length) :
    (runScript sc c h (some k)).retval = some ()
  ∧ (runScript sc c h (some k)).raisedInBody = true
  ∧ (2 ≤ k →
      (runScript sc c h (some k)).trace
        = (scriptCalls sc h).take k ++ [Event.messageBox Dialog.failureTrace])
  ∧ (k < 2 → (runScript sc c h (some k)).trace = (scriptCalls sc h).take k) := by
  have htr : runTry (some k) (scriptCalls sc h) = ⟨(scriptCalls sc h).take k, true⟩ := by
    simp [runTry, hk]
  refine ⟨handleExcept_retval _, ?_, ?_, ?_⟩
  · show (handleExcept (runTry (some k) (scriptCalls sc h))).raisedInBody = true
    rw [htr]
    by_cases hm : Event.userInterface ∈ (scriptCalls sc h).take k
    · rw [handleExcept_raised_mem hm]
    · rw [handleExcept_raised_not_mem hm]
  · intro h2
    obtain ⟨m, rfl⟩ : ∃ m, k = m + 2 := ⟨k - 2, by omega⟩
    have hm := userInterface_mem_take sc h m
    show (handleExcept (runTry (some (m + 2)) (scriptCalls sc h))).trace = _
    rw [htr, handleExcept_raised_mem hm]
  · intro hlt
    have hm : Event.userInterface ∉ (scriptCalls sc h).take k := by
      interval_cases k
      · simp
      · rw [scriptCalls_take_one sc h]
        simp
    show (handleExcept (runTry (some k) (scriptCalls sc h))).trace = _
    rw [htr, handleExcept_raised_not_mem hm]

/-- C2 witness: the amended reporting theorem at the concrete host `hB`,
script `box.py`, and a failure at call index 5 (inside the geometry
construction): the exception is caught, `run` returns normally, and the
failure dialog is appended after the five completed calls. -/
theorem c2_amended_reporting_witness :
    5 < (scriptCalls Script.box hB).length
  ∧ ((runScript Script.box () hB (some 5)).retval = some ()
      ∧ (runScript Script.box () hB (some 5)).raisedInBody = true
      ∧ (2 ≤ 5 →
          (runScript Script.box () hB (some 5)).trace
            = (scriptCalls Script.box hB).take 5
                ++ [Event.messageBox Dialog.failureTrace])
      ∧ (5 < 2 →
          (runScript Script.box () hB (some 5)).trace
            = (scriptCalls Script.box hB).take 5)) :=
  ⟨by decide, c2_amended_reporting () Script.box hB 5 (by decide)⟩

/-- C1 counterexample: the claim says every script's call sequence contains
an extrusion followed by a fillet step.  The complete run of
`examples/rectangle_with_hole/rectangle_with_hole.py` (the cut-based smiley
script) at the concrete host `hB` issues no `fillets.add` call at all. -/
theorem c1_counterexample :
    Event.filletsAdd ∉ (runScript Script.rectangleWithHole () hB none).trace := by
  decide

/-- C1 (amended): four of the five scripts (`box.py`,
`rectangle_with_hole_and_fillet.py`, `circle_with_hole_and_fillet.py`,
`face_with_eyes_and_mouth.py`) perform, in order: open a new document, add
a sketch, add 2D curves at literal coordinates, resolve the profile at
index 0, extrude, collect edges, apply a fillet, and show the success
dialog.  The cut-based smiley script
(`rectangle_with_hole/rectangle_with_hole.py`) instead follows its solid
extrusion with a sketch on the selected top face and a cut extrusion
(`extrudes.createInput(profileCollection, Cut)` then `extrudes.add`) before
the success dialog, and issues no fillet step and no edge-collection call
at all. -/
theorem c1_amended_order {α : Type} (c : α) (h : Host) :
    (List.Sublist [Event.documentsAdd, Event.sketchesAddOnPlane,
      Event.addTwoPointRectangle (-10) (-5) 10 5,
      Event.addByCenterRadius 0 0 3, Event.profilesItem 0,
      Event.extrudeCreateInput (.single 0) .newBody, Event.extrudesAdd,
      Event.objectCollectionCreate, Event.filletsAdd,
      Event.messageBox (.info boxMsg)]
      ((runScript Script.box c h none).trace))
  ∧ (List.Sublist [Event.documentsAdd, Event.sketchesAddOnPlane,
      Event.addTwoPointRectangle (-10) (-5) 10 5,
      Event.addByCenterRadius 0 0 3, Event.profilesItem 0,
      Event.extrudeCreateInput (.single 0) .newBody, Event.extrudesAdd,
      Event.objectCollectionCreate, Event.filletsAdd,
      Event.messageBox (.info rect2Msg)]
      ((runScript Script.rectangleWithHoleAndFillet c h none).trace))
  ∧ (List.Sublist [Event.documentsAdd, Event.sketchesAddOnPlane,
      Event.addByCenterRadius 0 0 25, Event.addByCenterRadius 0 0 20,
      Event.profilesItem 0,
      Event.extrudeCreateInput (.single 0) .newBody, Event.extrudesAdd,
      Event.objectCollectionCreate, Event.filletsAdd,
      Event.messageBox (.info circleMsg)]
      ((runScript Script.circleWithHoleAndFillet c h none).trace))
  ∧ (List.Sublist [Event.documentsAdd, Event.sketchesAddOnPlane,
      Event.addByCenterRadius 0 0 50, Event.addByCenterRadius 0 (-10) 10,
      Event.profilesItem 0,
      Event.extrudeCreateInput (.single 0) .newBody, Event.extrudesAdd,
      Event.objectCollectionCreate, Event.filletsAdd,
      Event.messageBox (.info faceMsg)]
      ((runScript Script.faceWithEyesAndMouth c h none).trace))
  ∧ (List.Sublist [Event.documentsAdd, Event.sketchesAddOnPlane,
      Event.addByCenterRadius 0 0 25, Event.profilesItem 0,
      Event.extrudeCreateInput (.single 0) .newBody, Event.extrudesAdd,
      Event.sketchesAddOnFace (findTopFace h.faces),
      Event.extrudeCreateInput .collection .cut,
      Event.extrudesAdd, Event.messageBox (.info smileyMsg)]
      ((runScript Script.rectangleWithHole c h none).trace))
  ∧ Event.filletsAdd ∉ (runScript Script.rectangleWithHole c h none).trace
  ∧ ∀ e : Nat,
      Event.collectionAddEdge e ∉ (runScript Script.rectangleWithHole c h none).trace := by
  refine ⟨?_, ?_, ?_, ?_, ?_, ?_, ?_⟩
  · rw [runScript_none_trace]
    show List.Sublist
      ([Event.documentsAdd, Event.sketchesAddOnPlane,
        Event.addTwoPointRectangle (-10) (-5) 10 5,
        Event.addByCenterRadius 0 0 3, Event.profilesItem 0,
        Event.extrudeCreateInput (.single 0) .newBody, Event.extrudesAdd,
        Event.objectCollectionCreate]
        ++ [Event.filletsAdd, Event.messageBox (.info boxMsg)])
      (boxPre ++ (h.edges.map Event.collectionAddEdge ++ boxPost))
    refine List.Sublist.append ?_ (List.Sublist.trans ?_
      (List.sublist_append_right (h.edges.map Event.collectionAddEdge) boxPost))
    · decide
    · decide
  · rw [runScript_none_trace]
    show List.Sublist
      ([Event.documentsAdd, Event.sketchesAddOnPlane,
        Event.addTwoPointRectangle (-10) (-5) 10 5,
        Event.addByCenterRadius 0 0 3, Event.profilesItem 0,
        Event.extrudeCreateInput (.single 0) .newBody, Event.extrudesAdd,
        Event.objectCollectionCreate]
        ++ [Event.filletsAdd, Event.messageBox (.info rect2Msg)])
      (rect2Pre ++ (h.edges.map Event.collectionAddEdge ++ rect2Post))
    refine List.Sublist.append ?_ (List.Sublist.trans ?_
      (List.sublist_append_right (h.edges.map Event.collectionAddEdge) rect2Post))
    · decide
    · decide
  · rw [runScript_none_trace]
    show List.Sublist
      ([Event.documentsAdd, Event.sketchesAddOnPlane,
        Event.addByCenterRadius 0 0 25, Event.addByCenterRadius 0 0 20,
        Event.profilesItem 0,
        Event.extrudeCreateInput (.single 0) .newBody, Event.extrudesAdd,
        Event.objectCollectionCreate]
        ++ [Event.filletsAdd, Event.messageBox (.info circleMsg)])
      (circlePre ++ (h.edges.map Event.collectionAddEdge ++ circlePost))
    refine List.Sublist.append ?_ (List.Sublist.trans ?_
      (List.sublist_append_right (h.edges.map Event.collectionAddEdge) circlePost))
    · decide
    · decide
  · rw [runScript_none_trace]
    show List.Sublist
      ([Event.documentsAdd, Event.sketchesAddOnPlane,
        Event.addByCenterRadius 0 0 50, Event.addByCenterRadius 0 (-10) 10,
        Event.profilesItem 0,
        Event.extrudeCreateInput (.single 0) .newBody, Event.extrudesAdd,
        Event.objectCollectionCreate]
        ++ [Event.filletsAdd, Event.messageBox (.info faceMsg)])
      (facePre ++ (h.edges.map Event.collectionAddEdge ++ facePost))
    refine List.Sublist.append ?_ (List.Sublist.trans ?_
      (List.sublist_append_right (h.edges.map Event.collectionAddEdge) facePost))
    · decide
    · decide
  · rw [runScript_none_trace]
    show List.Sublist
      ([Event.documentsAdd, Event.sketchesAddOnPlane,
        Event.addByCenterRadius 0 0 25, Event.profilesItem 0,
        Event.extrudeCreateInput (.single 0) .newBody, Event.extrudesAdd]
        ++ Event.sketchesAddOnFace (findTopFace h.faces)
            :: [Event.extrudeCreateInput .collection .cut,
                Event.extrudesAdd, Event.messageBox (.info smileyMsg)])
      (smileyPre
        ++ Event.sketchesAddOnFace (findTopFace h.faces)
            :: (smileyMid ++ smileyProfLoop h.topProfileCount ++ smileyPost))
    refine List.Sublist.append ?_ (List.Sublist.cons₂ _ (List.Sublist.trans ?_
      (List.sublist_append_right (smileyMid ++ smileyProfLoop h.topProfileCount)
        smileyPost)))
    · decide
    · decide
  · rw [runScript_none_trace]
    show Event.filletsAdd ∉ smileyCalls h
    simp [smileyCalls, smileyPre, smileyMid, smileyPost, smileyProfLoop,
      List.mem_append, List.mem_flatMap]
  · intro e
    rw [runScript_none_trace]
    show Event.collectionAddEdge e ∉ smileyCalls h
    simp [smileyCalls, smileyPre, smileyMid, smileyPost, smileyProfLoop,
      List.mem_append, List.mem_flatMap]

/-- C4: in each of the four fillet-applying scripts, the fillet is a single
constant-radius edge set: exactly one `addConstantRadiusEdgeSet` call occurs
per run, its edge collection receives exactly the edges of the extruded
body, each once and in order and nothing else, and the constant radius is
`1` for `box.py` (tangent-chain flag `True`), `1` for
`rectangle_with_hole_and_fillet.py`, `2` for
`circle_with_hole_and_fillet.py`, and `1.5` for
`face_with_eyes_and_mouth.py` (tangent-chain flag `False` for those three). -/
theorem c4_fillet_edge_sets (h : Host) :
    ((scriptCalls Script.box h).filterMap edgeArg = h.edges
      ∧ (scriptCalls Script.box h).filterMap filletSetArg = [((1 : ℚ), true)])
  ∧ ((scriptCalls Script.rectangleWithHoleAndFillet h).filterMap edgeArg = h.edges
      ∧ (scriptCalls Script.rectangleWithHoleAndFillet h).filterMap filletSetArg
          = [((1 : ℚ), false)])
  ∧ ((scriptCalls Script.circleWithHoleAndFillet h).filterMap edgeArg = h.edges
      ∧ (scriptCalls Script.circleWithHoleAndFillet h).filterMap filletSetArg
          = [((2 : ℚ), false)])
  ∧ ((scriptCalls Script.faceWithEyesAndMouth h).filterMap edgeArg = h.edges
      ∧ (scriptCalls Script.faceWithEyesAndMouth h).filterMap filletSetArg
          = [((3 / 2 : ℚ), false)]) := by
  simp [scriptCalls, boxCalls, rect2Calls, circleCalls, faceCalls,
    boxPre, boxPost, rect2Pre, rect2Post, circlePre, circlePost, facePre, facePost,
    List.filterMap_append, edgeArg, filletSetArg,
    filterMap_map_of_some Event.collectionAddEdge edgeArg (fun e => e) (fun _ => rfl),
    filterMap_map_of_none Event.collectionAddEdge filletSetArg (fun _ => rfl)]

/-- C5: in each of the four scripts whose extrusions take a single profile,
the profile extruded is the element at index 0 of the sketch's profile
collection: the only `profiles.item` call of the whole run has index 0, and
the only `extrudes.createInput` call receives that single profile (with the
new-body operation) — one selection, no other profile examined. -/
theorem c5_profile_index_zero (h : Host) :
    ((scriptCalls Script.box h).filterMap profileItemArg = [0]
      ∧ (scriptCalls Script.box h).filterMap extrudeInputArg
          = [(ProfileSrc.single 0, FeatureOp.newBody)])
  ∧ ((scriptCalls Script.rectangleWithHoleAndFillet h).filterMap profileItemArg = [0]
      ∧ (scriptCalls Script.rectangleWithHoleAndFillet h).filterMap extrudeInputArg
          = [(ProfileSrc.single 0, FeatureOp.newBody)])
  ∧ ((scriptCalls Script.circleWithHoleAndFillet h).filterMap profileItemArg = [0]
      ∧ (scriptCalls Script.circleWithHoleAndFillet h).filterMap extrudeInputArg
          = [(ProfileSrc.single 0, FeatureOp.newBody)])
  ∧ ((scriptCalls Script.faceWithEyesAndMouth h).filterMap profileItemArg = [0]
      ∧ (scriptCalls Script.faceWithEyesAndMouth h).filterMap extrudeInputArg
          = [(ProfileSrc.single 0, FeatureOp.newBody)]) := by
  simp [scriptCalls, boxCalls, rect2Calls, circleCalls, faceCalls,
    boxPre, boxPost, rect2Pre, rect2Post, circlePre, circlePost, facePre, facePost,
    List.filterMap_append, profileItemArg, extrudeInputArg,
    filterMap_map_of_none Event.collectionAddEdge profileItemArg (fun _ => rfl),
    filterMap_map_of_none Event.collectionAddEdge extrudeInputArg (fun _ => rfl)]

/-- C8: in `face_with_eyes_and_mouth.py` the outer face circle is created
with radius `50` — the full 50 mm diameter the script's header documents,
not half of it — which is twice the `25` used for the documented
50 mm-diameter circle in `circle_with_hole_and_fillet.py` and in the
cut-based smiley script. -/
theorem c8_face_circle_radius (h : Host) :
    ((scriptCalls Script.faceWithEyesAndMouth h).filterMap circleArg).head?
        = some (0, 0, (50 : ℚ))
  ∧ (50 : ℚ) = 2 * 25
  ∧ ((scriptCalls Script.circleWithHoleAndFillet h).filterMap circleArg).head?
        = some (0, 0, (25 : ℚ))
  ∧ ((scriptCalls Script.rectangleWithHole h).filterMap circleArg).head?
        = some (0, 0, (25 : ℚ)) := by
  refine ⟨?_, by norm_num, ?_, ?_⟩ <;>
    simp [scriptCalls, circleCalls, faceCalls, smileyCalls,
      circlePre, circlePost, facePre, facePost,
      smileyPre, smileyMid, smileyPost, smileyProfLoop,
      List.filterMap_append, circleArg,
      filterMap_map_of_none Event.collectionAddEdge circleArg (fun _ => rfl),
      filterMap_pairLoop circleArg (fun _ => rfl) (fun _ => rfl)]

lemma findTopFace_some_spec : ∀ (faces : List ℚ) (i : Nat),
    findTopFace faces = some i →
    i < faces.length ∧ isTopFace (faces.getD i 0) = true
      ∧ ∀ j, j < i → isTopFace (faces.getD j 0) = false := by
  intro faces
  induction faces with
  | nil => intro i hi; simp [findTopFace] at hi
  | cons z rest ih =>
      intro i hi
      simp only [findTopFace] at hi
      by_cases hz : isTopFace z = true
      · rw [if_pos hz] at hi
        injection hi with hi
        subst hi
        exact ⟨Nat.succ_pos _, by simpa using hz,
          fun j hj => absurd hj (Nat.not_lt_zero j)⟩
      · rw [if_neg hz] at hi
        rcases hm : findTopFace rest with _ | m
        · rw [hm] at hi
          simp at hi
        · rw [hm] at hi
          simp only [Option.map_some'] at hi
          injection hi with hi
          subst hi
          obtain ⟨h1, h2, h3⟩ := ih m hm
          refine ⟨Nat.succ_lt_succ h1, by simpa using h2, ?_⟩
          intro j hj
          cases j with
          | zero =>
              simp only [List.getD_cons_zero]
              exact Bool.not_eq_true _ ▸ by simpa using hz
          | succ j =>
              simpa using h3 j (Nat.lt_of_succ_lt_succ hj)

lemma findTopFace_none_spec : ∀ (faces : List ℚ),
    findTopFace faces = none → ∀ z ∈ faces, isTopFace z = false := by
  intro faces
  induction faces with
  | nil => intro _ z hz; simp at hz
  | cons z rest ih =>
      intro hn w hw
      simp only [findTopFace] at hn
      by_cases hz : isTopFace z = true
      · rw [if_pos hz] at hn
        simp at hn
      · rw [if_neg hz] at hn
        rcases List.mem_cons.mp hw with rfl | hw
        · simpa using hz
        · rcases hm : findTopFace rest with _ | m
          · exact ih hm w hw
          · rw [hm] at hn
            simp at hn

/-- C6: in the cut-based smiley script, the second sketch is created on
`topFace = findTopFace(body.faces)`: the first face in iteration order whose
surface normal's z-component differs from 1 by less than 0.001 (every
earlier face fails the test, and iteration stops at the first match); if no
face satisfies the condition, `topFace` remains `None` and `None` is what is
passed to `sketches.add`. -/
theorem c6_top_face_selection (h : Host) :
    Event.sketchesAddOnFace (findTopFace h.faces)
        ∈ scriptCalls Script.rectangleWithHole h
  ∧ (∀ i, findTopFace h.faces = some i →
        i < h.faces.length
      ∧ isTopFace (h.faces.getD i 0) = true
      ∧ ∀ j, j < i → isTopFace (h.faces.getD j 0) = false)
  ∧ (findTopFace h.faces = none →
        (∀ z ∈ h.faces, isTopFace z = false)
      ∧ Event.sketchesAddOnFace none ∈ scriptCalls Script.rectangleWithHole h) := by
  have hmem : Event.sketchesAddOnFace (findTopFace h.faces)
      ∈ scriptCalls Script.rectangleWithHole h := by
    simp [scriptCalls, smileyCalls]
  refine ⟨hmem, fun i hi => findTopFace_some_spec h.faces i hi,
    fun hn => ⟨findTopFace_none_spec h.faces hn, ?_⟩⟩
  rw [← hn]
  exact hmem

/-- C6 witness: at the concrete host `hC` (faces with normal z-components
`[0, 1]`), the selected face is the one at index 1: the face at index 0
fails the test, the face at index 1 passes it, and
`sketches.add(topFace)` receives that face. -/
theorem c6_top_face_selection_witness :
    Event.sketchesAddOnFace (some 1) ∈ scriptCalls Script.rectangleWithHole hC
  ∧ 1 < hC.faces.length
  ∧ isTopFace (hC.faces.getD 1 0) = true
  ∧ isTopFace (hC.faces.getD 0 0) = false := by
  have h0 : isTopFace 0 = false := by
    unfold isTopFace
    norm_num
  have h1 : isTopFace 1 = true := by
    unfold isTopFace
    norm_num
  have hf : findTopFace hC.faces = some 1 := by
    show findTopFace [0, 1] = some 1
    simp [findTopFace, h0, h1]
  have H := c6_top_face_selection hC
  obtain ⟨h1, h2, h3⟩ := H.2.1 1 hf
  refine ⟨?_, h1, h2, h3 0 (by decide)⟩
  have hm := H.1
  rw [hf] at hm
  exact hm

/-- C1 witness: the amended ordering at the concrete host `hB`: `box.py`
contains the full documented step order ending in fillet and dialog, and
the cut-based smiley script's complete run contains no fillet call. -/
theorem c1_amended_order_witness :
    List.Sublist
      [Event.documentsAdd, Event.sketchesAddOnPlane,
        Event.addTwoPointRectangle (-10) (-5) 10 5,
        Event.addByCenterRadius 0 0 3, Event.profilesItem 0,
        Event.extrudeCreateInput (.single 0) .newBody, Event.extrudesAdd,
        Event.objectCollectionCreate, Event.filletsAdd,
        Event.messageBox (.info boxMsg)]
      ((runScript Script.box () hB none).trace)
  ∧ Event.filletsAdd ∉ (runScript Script.rectangleWithHole () hB none).trace
  ∧ Event.collectionAddEdge 7 ∉ (runScript Script.rectangleWithHole () hB none).trace := by
  have H := c1_amended_order () hB
  exact ⟨H.1, H.2.2.2.2.2.1, H.2.2.2.2.2.2 7⟩

/-- C3 witness: at the concrete host `hB`, a failure at call index 3 of
`box.py` leaves exactly the first three calls in the trace, and the
complete run issues no deletion call. -/
theorem c3_failure_truncates_no_cleanup_witness :
    (runTry (some 3) (scriptCalls Script.box hB)).trace
        = (scriptCalls Script.box hB).take 3
  ∧ Event.deleteObject 0 ∉ (runScript Script.box () hB none).trace := by
  have H := c3_failure_truncates_no_cleanup () Script.box hB 3
  exact ⟨H.1, H.2.2 none 0⟩

end Fusion360
